import Mathlib

/-!
Shallow embedding of the two eBPF TLS-capture probes of this repository:

* `src/ebpf/openssl/openssl_tls.bpf.c` — the ring-buffer variant: fixed
  512-byte embedded capture (`MAX_TLS_DATA`), an `ssl_fd_map` handle
  registry, per-thread `pending_write` / `pending_read` tables keyed by
  `bpf_get_current_pid_tgid()`, and `emit_event` building a `tls_event`.
* `src/ebpf/bpf/openssl_hook.c` — the perf-event variant: size-capped
  capture (`MAX_CAPTURE_SIZE` = 65536), an `ssl_read_context` table for
  SSL_read correlation, and events emitted through a perf event array.

BPF maps are modelled as functions `Nat → Option V` (keys are the u64
`pid_tgid` or the u64 SSL pointer).  External effects are passed in as
explicit oracle arguments: `reserveOk` (ring-buffer reservation succeeds),
`readOk` (`bpf_probe_read_user` succeeds), `perfOk` (the perf transport
accepts the record), `mem` (the bytes at the captured user address), and
`now` (`bpf_ktime_get_ns`).  Every probe in the source returns 0 on every
path, so handlers are total functions on the state; the emitted-record
streams are kept as lists.  Machine arithmetic is explicit: `u32` casts
are `% 2^32` and the `__s32` reinterpretation of a stored `__u32` is
`s32ofU32`.
-/

/-- Function-map update, modelling `bpf_map_update_elem(map, &k, &v, BPF_ANY)`. -/
def mapUpdate {V : Type} (m : Nat → Option V) (k : Nat) (v : V) : Nat → Option V :=
  fun x => if x = k then some v else m x

/-- Function-map deletion, modelling `bpf_map_delete_elem(map, &k)`. -/
def mapDelete {V : Type} (m : Nat → Option V) (k : Nat) : Nat → Option V :=
  fun x => if x = k then none else m x

theorem mapUpdate_same {V : Type} (m : Nat → Option V) (k : Nat) (v : V) :
    mapUpdate m k v k = some v := by
  simp [mapUpdate]

theorem mapDelete_same {V : Type} (m : Nat → Option V) (k : Nat) :
    mapDelete m k k = none := by
  simp [mapDelete]

theorem mapDelete_absent {V : Type} (m : Nat → Option V) (k : Nat)
    (h : m k = none) : mapDelete m k = m := by
  funext x
  by_cases hx : x = k
  · simp [mapDelete, hx, h.symm, hx ▸ h]
  · simp [mapDelete, hx]

/-! ## Ring-buffer variant: `src/ebpf/openssl/openssl_tls.bpf.c` -/

/-- `#define MAX_TLS_DATA 512` -/
def MAX_TLS_DATA : Nat := 512

/-- `#define DIR_WRITE 1` -/
def DIR_WRITE : Nat := 1

/-- `#define DIR_READ 2` -/
def DIR_READ : Nat := 2

/-- `#define FLAG_TRUNCATED 1` -/
def FLAG_TRUNCATED : Nat := 1

/-- `struct ssl_io_args`: the per-thread pending-call record (the requested
length is not part of it — the entry probes of this variant never read it). -/
structure ssl_io_args where
  ssl_ptr : Nat
  buf_ptr : Nat
deriving DecidableEq, Repr

/-- `struct tls_event`.  `fd` is the `__s32` field; `data` is the captured
byte range: `some bytes` when `bpf_probe_read_user` was performed and
succeeded, `none` when it was skipped or failed (the reserved ring-buffer
bytes are then left as they were, which the embedding does not fabricate). -/
structure tls_event where
  timestamp_ns : Nat
  ssl_ptr : Nat
  pid : Nat
  tid : Nat
  fd : Int
  total_len : Nat
  data_len : Nat
  direction : Nat
  flags : Nat
  data : Option (List Nat)
deriving DecidableEq, Repr

/-- `get_tid(pid_tgid)`: the low 32 bits. -/
def get_tid (pid_tgid : Nat) : Nat := pid_tgid % 2 ^ 32

/-- `get_pid(pid_tgid)`: `pid_tgid >> 32`. -/
def get_pid (pid_tgid : Nat) : Nat := pid_tgid / 2 ^ 32

/-- The C cast `(__u32)x` of a signed 64-bit value. -/
def u32ofInt (x : Int) : Nat := (x % (2 ^ 32 : Int)).toNat

/-- The C reinterpretation `*(__s32 *)&u` of a stored `__u32`. -/
def s32ofU32 (n : Nat) : Int :=
  if n < 2 ^ 31 then (n : Int) else (n : Int) - 2 ^ 32

/-- The descriptor resolution inside `emit_event`:
`fd = bpf_map_lookup_elem(&ssl_fd_map, &ssl)` then `*(__s32*)fd`, or `-1`
when the handle is absent. -/
def lookup_fd (m : Nat → Option Nat) (ssl : Nat) : Int :=
  match m ssl with
  | some v => s32ofU32 v
  | none => -1

/-- `emit_event(args, captured_len, direction)` of `openssl_tls.bpf.c`,
lines 64–105.  Returns the record submitted to the ring buffer, or `none`
when nothing is submitted (`args` null, `captured_len <= 0`, or
`bpf_ringbuf_reserve` failure).  Note the source ignores the return value
of `bpf_probe_read_user` and submits unconditionally. -/
def emit_event (fdmap : Nat → Option Nat) (args : Option ssl_io_args)
    (captured_len : Int) (direction : Nat) (reserveOk : Bool)
    (now pid_tgid : Nat) (readOk : Bool) (mem : List Nat) : Option tls_event :=
  match args with
  | none => none
  | some a =>
    if captured_len ≤ 0 then none
    else
      let copy_len0 := u32ofInt captured_len
      let copy_len := if copy_len0 > MAX_TLS_DATA then MAX_TLS_DATA else copy_len0
      let flags := if copy_len0 > MAX_TLS_DATA then FLAG_TRUNCATED else 0
      if reserveOk = false then none
      else
        some
          { timestamp_ns := now
            ssl_ptr := a.ssl_ptr
            pid := get_pid pid_tgid
            tid := get_tid pid_tgid
            fd := lookup_fd fdmap a.ssl_ptr
            total_len := copy_len0
            data_len := copy_len
            direction := direction
            flags := flags
            data :=
              if copy_len > 0 then
                (if readOk then some (mem.take copy_len) else none)
              else none }

/-- The complete mutable state of `openssl_tls.bpf.c`: its three hash maps
and the stream of records submitted to the `tls_events` ring buffer.  The
source declares no other map and no counter. -/
structure StateA where
  ssl_fd_map : Nat → Option Nat
  pending_write : Nat → Option ssl_io_args
  pending_read : Nat → Option ssl_io_args
  events : List tls_event

/-- The state with all maps empty and nothing submitted. -/
def emptyA : StateA :=
  { ssl_fd_map := fun _ => none
    pending_write := fun _ => none
    pending_read := fun _ => none
    events := [] }

/-- `handle_ssl_set_fd`: `uprobe/SSL_set_fd`, stores `(__u32)PARM2` under
the SSL pointer with `BPF_ANY` (insert or overwrite). -/
def handle_ssl_set_fd (ssl fd : Nat) (st : StateA) : StateA :=
  { st with ssl_fd_map := mapUpdate st.ssl_fd_map ssl (fd % 2 ^ 32) }

/-- `handle_ssl_free`: `uprobe/SSL_free`, deletes the SSL pointer from
`ssl_fd_map`. -/
def handle_ssl_free (ssl : Nat) (st : StateA) : StateA :=
  { st with ssl_fd_map := mapDelete st.ssl_fd_map ssl }

/-- `handle_ssl_write_entry`: `uprobe/SSL_write`.  Reads only `PARM1` (ssl)
and `PARM2` (buf); the requested length `PARM3` is never examined, and the
entry is stored unconditionally under `tid_key()`. -/
def handle_ssl_write_entry (pid_tgid ssl buf : Nat) (st : StateA) : StateA :=
  { st with pending_write := mapUpdate st.pending_write pid_tgid ⟨ssl, buf⟩ }

/-- `handle_ssl_write_exit`: `uretprobe/SSL_write`.  Looks up the pending
entry, emits via `emit_event` with the return code, then deletes the key. -/
def handle_ssl_write_exit (pid_tgid : Nat) (ret : Int) (reserveOk : Bool)
    (now : Nat) (readOk : Bool) (mem : List Nat) (st : StateA) : StateA :=
  match st.pending_write pid_tgid with
  | none => st
  | some args =>
    let ev := emit_event st.ssl_fd_map (some args) ret DIR_WRITE reserveOk now pid_tgid readOk mem
    { st with
        events := st.events ++ ev.toList
        pending_write := mapDelete st.pending_write pid_tgid }

/-- `handle_ssl_read_entry`: `uprobe/SSL_read`, same unconditional store as
the write entry, into `pending_read`. -/
def handle_ssl_read_entry (pid_tgid ssl buf : Nat) (st : StateA) : StateA :=
  { st with pending_read := mapUpdate st.pending_read pid_tgid ⟨ssl, buf⟩ }

/-- `handle_ssl_read_exit`: `uretprobe/SSL_read` of the ring-buffer
variant. -/
def handle_ssl_read_exit (pid_tgid : Nat) (ret : Int) (reserveOk : Bool)
    (now : Nat) (readOk : Bool) (mem : List Nat) (st : StateA) : StateA :=
  match st.pending_read pid_tgid with
  | none => st
  | some args =>
    let ev := emit_event st.ssl_fd_map (some args) ret DIR_READ reserveOk now pid_tgid readOk mem
    { st with
        events := st.events ++ ev.toList
        pending_read := mapDelete st.pending_read pid_tgid }

/-- A completed outbound call in the ring-buffer variant: the entry probe
fires, then the exit probe fires with the call's return code `ret` on the
same thread.  The requested length `num` of the intercepted `SSL_write` is
a register the entry probe could read but never does, so it is an unused
argument here: the behaviour is identical for every `num`. -/
def fileA_write_call (pid_tgid ssl buf : Nat) (num ret : Int) (reserveOk : Bool)
    (now : Nat) (readOk : Bool) (mem : List Nat) (st : StateA) : StateA :=
  handle_ssl_write_exit pid_tgid ret reserveOk now readOk mem
    (handle_ssl_write_entry pid_tgid ssl buf st)

/-! ## Perf-event variant: `src/ebpf/bpf/openssl_hook.c` -/

/-- `#define MAX_CAPTURE_SIZE 65536` -/
def MAX_CAPTURE_SIZE : Nat := 65536

/-- `struct ssl_event` of `openssl_hook.c` (no truncation flag, no total
length field; `fd` is hardcoded to 0 by both emitting probes). -/
structure ssl_event where
  timestamp_ns : Nat
  pid : Nat
  tid : Nat
  fd : Nat
  is_write : Nat
  data_len : Nat
  data : List Nat
deriving DecidableEq, Repr

/-- `struct ssl_read_ctx`: buffer pointer and requested length stored at
`SSL_read` entry. -/
structure ssl_read_ctx where
  buf : Nat
  num : Int
deriving DecidableEq, Repr

/-- The complete mutable state of `openssl_hook.c`: its single hash map and
the stream of records accepted by the perf event array.  The source
declares no other map and no counter. -/
structure StateB where
  ssl_read_context : Nat → Option ssl_read_ctx
  events : List ssl_event

/-- The state with the context map empty and nothing emitted. -/
def emptyB : StateB :=
  { ssl_read_context := fun _ => none
    events := [] }

/-- `uprobe_ssl_write`: `uprobe/SSL_write` of the perf variant.  Emits the
event at call ENTRY (there is no `uretprobe/SSL_write` in this file): guard
`num <= 0 || num > MAX_CAPTURE_SIZE`, then `bpf_probe_read_user` (skip on
failure), then `bpf_perf_event_output` whose return value is ignored
(`perfOk` decides whether the transport accepts the record). -/
def uprobe_ssl_write (pid_tgid now buf : Nat) (num : Int)
    (readOk perfOk : Bool) (mem : List Nat) (st : StateB) : StateB :=
  if num ≤ 0 ∨ num > (MAX_CAPTURE_SIZE : Int) then st
  else if readOk = false then st
  else
    { st with
        events := st.events ++
          (if perfOk then
            [{ timestamp_ns := now
               pid := get_pid pid_tgid
               tid := get_tid pid_tgid
               fd := 0
               is_write := 1
               data_len := num.toNat
               data := mem.take num.toNat }]
          else []) }

/-- `uprobe_ssl_read`: `uprobe/SSL_read` of the perf variant.  Stores the
context only when `0 < num <= MAX_CAPTURE_SIZE`. -/
def uprobe_ssl_read (pid_tgid buf : Nat) (num : Int) (st : StateB) : StateB :=
  if num ≤ 0 ∨ num > (MAX_CAPTURE_SIZE : Int) then st
  else
    { st with
        ssl_read_context :=
          mapUpdate st.ssl_read_context pid_tgid { buf := buf, num := num } }

/-- `uretprobe_ssl_read`: `uretprobe/SSL_read` of the perf variant.  The
return-code guard deletes the context and emits nothing; an absent context
emits nothing; a failed read deletes the context and emits nothing;
otherwise `data_len = min(ret_val, num)` and the record goes to the perf
array (accepted when `perfOk`). -/
def uretprobe_ssl_read (pid_tgid now : Nat) (ret_val : Int)
    (readOk perfOk : Bool) (mem : List Nat) (st : StateB) : StateB :=
  if ret_val ≤ 0 ∨ ret_val > (MAX_CAPTURE_SIZE : Int) then
    { st with ssl_read_context := mapDelete st.ssl_read_context pid_tgid }
  else
    match st.ssl_read_context pid_tgid with
    | none => st
    | some ctx_data =>
      let data_len : Int := if ret_val < ctx_data.num then ret_val else ctx_data.num
      if readOk = false then
        { st with ssl_read_context := mapDelete st.ssl_read_context pid_tgid }
      else
        { ssl_read_context := mapDelete st.ssl_read_context pid_tgid
          events := st.events ++
            (if perfOk then
              [{ timestamp_ns := now
                 pid := get_pid pid_tgid
                 tid := get_tid pid_tgid
                 fd := 0
                 is_write := 0
                 data_len := data_len.toNat
                 data := mem.take data_len.toNat }]
            else []) }

/-- `uprobe_ssl_write_ex`: the `SSL_write_ex` probe delegates to
`uprobe_ssl_write`. -/
def uprobe_ssl_write_ex (pid_tgid now buf : Nat) (num : Int)
    (readOk perfOk : Bool) (mem : List Nat) (st : StateB) : StateB :=
  uprobe_ssl_write pid_tgid now buf num readOk perfOk mem st

/-- `uretprobe_ssl_read_ex`: the `SSL_read_ex` probe delegates to
`uretprobe_ssl_read`. -/
def uretprobe_ssl_read_ex (pid_tgid now : Nat) (ret_val : Int)
    (readOk perfOk : Bool) (mem : List Nat) (st : StateB) : StateB :=
  uretprobe_ssl_read pid_tgid now ret_val readOk perfOk mem st

/-- A completed outbound call in the perf variant.  `openssl_hook.c`
installs no `uretprobe/SSL_write`, so the events of a completed write call
are exactly those produced by `uprobe_ssl_write` at entry; the call's
eventual return code `ret` is never observed and is an unused argument. -/
def fileB_write_call (pid_tgid now buf : Nat) (num ret : Int)
    (readOk perfOk : Bool) (mem : List Nat) (st : StateB) : StateB :=
  uprobe_ssl_write pid_tgid now buf num readOk perfOk mem st

/-- A completed inbound call in the perf variant: `uprobe_ssl_read` at
entry with requested length `num`, then `uretprobe_ssl_read` at exit with
return code `ret_val`, on the same thread. -/
def fileB_read_call (pid_tgid buf : Nat) (num : Int) (now : Nat) (ret_val : Int)
    (readOk perfOk : Bool) (mem : List Nat) (st : StateB) : StateB :=
  uretprobe_ssl_read pid_tgid now ret_val readOk perfOk mem
    (uprobe_ssl_read pid_tgid buf num st)

/-! ## Claim theorems -/

/-- Concrete event produced by `emit_event` for return code 600 (used by the
C1 witness). -/
def ev600 : tls_event :=
  { timestamp_ns := 0, ssl_ptr := 1, pid := 0, tid := 7, fd := -1,
    total_len := 600, data_len := 512, direction := 1, flags := 1,
    data := some [] }

/-- Claim C1 (amended): in the ring-buffer variant, every record produced by
`emit_event` has `data_len ≤ MAX_TLS_DATA`, and its truncation flag is set
iff its recorded `total_len` exceeds `data_len`; moreover every call with a
positive return code below `2^32` and above `MAX_TLS_DATA` still yields a
record with `data_len = MAX_TLS_DATA` and the flag set when the ring-buffer
reservation succeeds (clamp-then-flag).  The perf-event variant instead
drops such calls (see the counterexample). -/
theorem c1_clamp_and_flag :
    (∀ fdmap a ret dir rsv now pt ro mem ev,
        emit_event fdmap (some a) ret dir rsv now pt ro mem = some ev →
          ev.data_len ≤ MAX_TLS_DATA ∧
            (ev.flags = FLAG_TRUNCATED ↔ ev.data_len < ev.total_len)) ∧
    (∀ fdmap a ret dir now pt ro mem,
        (MAX_TLS_DATA : Int) < ret → ret < 2 ^ 32 →
          ∃ ev, emit_event fdmap (some a) ret dir true now pt ro mem = some ev ∧
            ev.data_len = MAX_TLS_DATA ∧ ev.flags = FLAG_TRUNCATED ∧
            ev.total_len = ret.toNat) := by
  constructor
  · intro fdmap a ret dir rsv now pt ro mem ev h
    simp only [emit_event] at h
    split at h
    · exact absurd h (by simp)
    · split at h
      · exact absurd h (by simp)
      · obtain rfl := Option.some.inj h
        by_cases hc : u32ofInt ret > MAX_TLS_DATA
        · simp only [MAX_TLS_DATA] at hc ⊢
          simp [hc, FLAG_TRUNCATED]
        · simp only [MAX_TLS_DATA] at hc ⊢
          simp [hc, FLAG_TRUNCATED]
          omega
  · intro fdmap a ret dir now pt ro mem h1 h2
    have hret : ¬ ret ≤ 0 := by
      simp [MAX_TLS_DATA] at h1; omega
    have hu : u32ofInt ret = ret.toNat := by
      unfold u32ofInt
      rw [Int.emod_eq_of_lt (by omega) h2]
    have hgt : u32ofInt ret > MAX_TLS_DATA := by
      rw [hu]; simp [MAX_TLS_DATA] at h1 ⊢; omega
    refine ⟨{ timestamp_ns := now, ssl_ptr := a.ssl_ptr, pid := get_pid pt,
              tid := get_tid pt, fd := lookup_fd fdmap a.ssl_ptr,
              total_len := ret.toNat, data_len := MAX_TLS_DATA,
              direction := dir, flags := FLAG_TRUNCATED,
              data := if ro then some (mem.take MAX_TLS_DATA) else none },
            ?_, rfl, rfl, rfl⟩
    simp only [emit_event, if_neg hret]
    rw [if_pos hgt, if_pos hgt, hu]
    simp [MAX_TLS_DATA]

/-- Claim C1 witness: concrete instantiations of both parts of
`c1_clamp_and_flag` at return code 600. -/
theorem c1_clamp_and_flag_witness :
    (emit_event (fun _ => none) (some ⟨1, 2⟩) 600 1 true 0 7 true [] = some ev600 ∧
      ev600.data_len ≤ MAX_TLS_DATA ∧
        (ev600.flags = FLAG_TRUNCATED ↔ ev600.data_len < ev600.total_len)) ∧
    ((MAX_TLS_DATA : Int) < 600 ∧ (600 : Int) < 2 ^ 32 ∧
      ∃ ev, emit_event (fun _ => none) (some ⟨1, 2⟩) 600 1 true 0 7 true [] = some ev ∧
        ev.data_len = MAX_TLS_DATA ∧ ev.flags = FLAG_TRUNCATED ∧
        ev.total_len = (600 : Int).toNat) :=
  ⟨⟨rfl, c1_clamp_and_flag.1 (fun _ => none) ⟨1, 2⟩ 600 1 true 0 7 true [] ev600 rfl⟩,
   by decide, by decide,
   c1_clamp_and_flag.2 (fun _ => none) ⟨1, 2⟩ 600 1 0 7 true [] (by decide) (by decide)⟩

/-- Claim C1 counterexample: in the perf-event variant a pending inbound
call (requested length 100) whose return code 65537 exceeds
`MAX_CAPTURE_SIZE` produces NO event at all — the record is dropped rather
than clamped to `MAX_CAPTURE_SIZE` with a truncation flag, refuting the
claim's clamp-then-flag part for `uretprobe_ssl_read`. -/
theorem c1_counterexample :
    (fileB_read_call 7 1 100 0 65537 true true [] emptyB).events = [] := rfl

/-- Claim C2 (amended): in the perf-event variant a failed
`bpf_probe_read_user` skips emission entirely — both `uprobe_ssl_write` and
`uretprobe_ssl_read` leave the event stream unchanged whenever the read
fails.  In the ring-buffer variant `emit_event` does not check the read
result and submits regardless (see the counterexample). -/
theorem c2_read_failure_skips_emission :
    (∀ pt now buf num po mem st,
        (uprobe_ssl_write pt now buf num false po mem st).events = st.events) ∧
    (∀ pt now ret po mem st,
        (uretprobe_ssl_read pt now ret false po mem st).events = st.events) := by
  constructor
  · intro pt now buf num po mem st
    unfold uprobe_ssl_write
    split
    · rfl
    · simp
  · intro pt now ret po mem st
    unfold uretprobe_ssl_read
    split
    · rfl
    · split
      · rfl
      · simp

/-- Claim C2 counterexample: in the ring-buffer variant, a call with
capture length 5 whose memory read FAILS (`readOk = false`) still submits
an event — `emit_event` ignores the `bpf_probe_read_user` return value, so
emission is not skipped, refuting the claim for `openssl_tls.bpf.c`. -/
theorem c2_counterexample :
    (emit_event (fun _ => none) (some ⟨1, 2⟩) 5 1 true 0 7 false
        [1, 2, 3, 4, 5]).isSome = true := rfl

/-- Claim C3 (amended): `emit_event` produces nothing when the return code
is non-positive; the perf variant's read path emits nothing at exit when
the return code is non-positive; and no entry probe of either variant emits
an event (so ring-buffer-variant events and perf-variant read events exist
only after an observed exit with positive return code).  The perf variant's
WRITE path instead emits at entry, before any return code exists (see the
counterexample). -/
theorem c3_nonpositive_ret_no_event :
    (∀ fdmap args ret dir rsv now pt ro mem, ret ≤ 0 →
        emit_event fdmap args ret dir rsv now pt ro mem = none) ∧
    (∀ pt now ret ro po mem st, ret ≤ 0 →
        (uretprobe_ssl_read pt now ret ro po mem st).events = st.events) ∧
    (∀ pt ssl buf st,
        (handle_ssl_write_entry pt ssl buf st).events = st.events ∧
        (handle_ssl_read_entry pt ssl buf st).events = st.events) ∧
    (∀ pt buf num st, (uprobe_ssl_read pt buf num st).events = st.events) := by
  refine ⟨?_, ?_, ?_, ?_⟩
  · intro fdmap args ret dir rsv now pt ro mem h
    cases args with
    | none => rfl
    | some a =>
      simp only [emit_event]
      rw [if_pos h]
  · intro pt now ret ro po mem st h
    unfold uretprobe_ssl_read
    rw [if_pos (Or.inl h)]
  · intro pt ssl buf st
    exact ⟨rfl, rfl⟩
  · intro pt buf num st
    unfold uprobe_ssl_read
    split <;> rfl

/-- Claim C3 witness: concrete instantiations of `c3_nonpositive_ret_no_event`
at return code −1. -/
theorem c3_nonpositive_ret_no_event_witness :
    ((-1 : Int) ≤ 0 ∧
      emit_event (fun _ => none) (some ⟨1, 2⟩) (-1) DIR_WRITE true 0 7 true [] = none) ∧
    ((uretprobe_ssl_read 7 0 (-1) true true [] emptyB).events = emptyB.events) ∧
    ((handle_ssl_write_entry 7 1 2 emptyA).events = emptyA.events) :=
  ⟨⟨by decide,
    c3_nonpositive_ret_no_event.1 (fun _ => none) (some ⟨1, 2⟩) (-1) DIR_WRITE true 0 7 true []
      (by decide)⟩,
   c3_nonpositive_ret_no_event.2.1 7 0 (-1) true true [] emptyB (by decide),
   (c3_nonpositive_ret_no_event.2.2.1 7 1 2 emptyA).1⟩

/-- Claim C3 counterexample: in the perf-event variant the outbound event is
emitted by `uprobe_ssl_write` at call ENTRY; a completed write call whose
return code is −1 has nonetheless produced one event, refuting "no Event
when the return code is ≤ 0" for that path. -/
theorem c3_counterexample :
    (fileB_write_call 7 0 1 5 (-1) true true [9, 9, 9, 9, 9] emptyB).events.length = 1 := rfl

/-- Claim C4: an exit callback that finds no pending entry under its
(direction, thread) key is a complete no-op — it emits nothing, raises
nothing, and the entire state (all other pending entries and all registry
bindings) is unchanged.  This holds for both ring-buffer exit handlers and
for the perf variant's `uretprobe_ssl_read` (whose unconditional cleanup
delete of an absent key is itself a no-op). -/
theorem c4_unmatched_exit_noop :
    (∀ pt ret rsv now ro mem st, st.pending_write pt = none →
        handle_ssl_write_exit pt ret rsv now ro mem st = st) ∧
    (∀ pt ret rsv now ro mem st, st.pending_read pt = none →
        handle_ssl_read_exit pt ret rsv now ro mem st = st) ∧
    (∀ pt now ret ro po mem st, st.ssl_read_context pt = none →
        uretprobe_ssl_read pt now ret ro po mem st = st) := by
  refine ⟨?_, ?_, ?_⟩
  · intro pt ret rsv now ro mem st h
    unfold handle_ssl_write_exit
    rw [h]
  · intro pt ret rsv now ro mem st h
    unfold handle_ssl_read_exit
    rw [h]
  · intro pt now ret ro po mem st h
    unfold uretprobe_ssl_read
    split
    · rw [mapDelete_absent _ _ h]
    · rw [h]

/-- Claim C4 witness: concrete no-op exits on the empty states. -/
theorem c4_unmatched_exit_noop_witness :
    handle_ssl_write_exit 7 5 true 0 true [] emptyA = emptyA ∧
    handle_ssl_read_exit 9 5 true 0 true [] emptyA = emptyA ∧
    uretprobe_ssl_read 9 0 5 true true [] emptyB = emptyB :=
  ⟨c4_unmatched_exit_noop.1 7 5 true 0 true [] emptyA rfl,
   c4_unmatched_exit_noop.2.1 9 5 true 0 true [] emptyA rfl,
   c4_unmatched_exit_noop.2.2 9 0 5 true true [] emptyB rfl⟩

/-- Reduction of `handle_ssl_write_exit` when a pending entry is found
(shared helper). -/
theorem handle_ssl_write_exit_found (pt : Nat) (ret : Int) (rsv : Bool) (now : Nat)
    (ro : Bool) (mem : List Nat) (st : StateA) (args : ssl_io_args)
    (h : st.pending_write pt = some args) :
    handle_ssl_write_exit pt ret rsv now ro mem st =
      { st with
          events := st.events ++
            (emit_event st.ssl_fd_map (some args) ret DIR_WRITE rsv now pt ro mem).toList
          pending_write := mapDelete st.pending_write pt } := by
  unfold handle_ssl_write_exit
  rw [h]

/-- Reduction of `handle_ssl_read_exit` when a pending entry is found
(shared helper). -/
theorem handle_ssl_read_exit_found (pt : Nat) (ret : Int) (rsv : Bool) (now : Nat)
    (ro : Bool) (mem : List Nat) (st : StateA) (args : ssl_io_args)
    (h : st.pending_read pt = some args) :
    handle_ssl_read_exit pt ret rsv now ro mem st =
      { st with
          events := st.events ++
            (emit_event st.ssl_fd_map (some args) ret DIR_READ rsv now pt ro mem).toList
          pending_read := mapDelete st.pending_read pt } := by
  unfold handle_ssl_read_exit
  rw [h]

/-- Explicit form of the record `emit_event` submits for a positive return
code with a successful ring-buffer reservation (shared helper). -/
theorem emit_event_pos_some (fdmap : Nat → Option Nat) (a : ssl_io_args)
    (ret : Int) (dir now pt : Nat) (ro : Bool) (mem : List Nat) (h : 0 < ret) :
    emit_event fdmap (some a) ret dir true now pt ro mem =
      some
        { timestamp_ns := now
          ssl_ptr := a.ssl_ptr
          pid := get_pid pt
          tid := get_tid pt
          fd := lookup_fd fdmap a.ssl_ptr
          total_len := u32ofInt ret
          data_len := if u32ofInt ret > MAX_TLS_DATA then MAX_TLS_DATA else u32ofInt ret
          direction := dir
          flags := if u32ofInt ret > MAX_TLS_DATA then FLAG_TRUNCATED else 0
          data :=
            if (if u32ofInt ret > MAX_TLS_DATA then MAX_TLS_DATA else u32ofInt ret) > 0 then
              (if ro then
                some (mem.take
                  (if u32ofInt ret > MAX_TLS_DATA then MAX_TLS_DATA else u32ofInt ret))
              else none)
            else none } := by
  simp only [emit_event, if_neg (by omega : ¬ ret ≤ 0)]
  rfl

/-- Claim C5: the registry lookup inside `emit_event` returns the
descriptor most recently bound by `handle_ssl_set_fd`, and the sentinel −1
when the handle was never bound or was freed by `handle_ssl_free`; in
particular a free followed by a matching call exit yields an event whose
`fd` is −1, never a stale descriptor. -/
theorem c5_lookup_most_recent :
    (∀ (st : StateA) (ssl fd : Nat),
        lookup_fd ((handle_ssl_set_fd ssl fd st).ssl_fd_map) ssl =
          s32ofU32 (fd % 2 ^ 32)) ∧
    (∀ (st : StateA) (ssl : Nat),
        st.ssl_fd_map ssl = none → lookup_fd st.ssl_fd_map ssl = -1) ∧
    (∀ (st : StateA) (ssl : Nat),
        lookup_fd ((handle_ssl_free ssl st).ssl_fd_map) ssl = -1) ∧
    (∀ (st : StateA) (pt : Nat) (args : ssl_io_args) (ret : Int) (now : Nat)
        (ro : Bool) (mem : List Nat),
        st.pending_write pt = some args → 0 < ret →
        ∃ ev,
          (handle_ssl_write_exit pt ret true now ro mem
              (handle_ssl_free args.ssl_ptr st)).events = st.events ++ [ev] ∧
            ev.fd = -1) := by
  refine ⟨?_, ?_, ?_, ?_⟩
  · intro st ssl fd
    simp [handle_ssl_set_fd, lookup_fd, mapUpdate]
  · intro st ssl h
    simp [lookup_fd, h]
  · intro st ssl
    simp [handle_ssl_free, lookup_fd, mapDelete]
  · intro st pt args ret now ro mem h hret
    have h' : (handle_ssl_free args.ssl_ptr st).pending_write pt = some args := h
    rw [handle_ssl_write_exit_found _ _ _ _ _ _ _ args h']
    simp only [handle_ssl_free]
    rw [emit_event_pos_some _ _ _ _ _ _ _ _ hret]
    exact ⟨_, rfl, by simp [lookup_fd, mapDelete_same]⟩

/-- Claim C5 witness: bind handle 1 to descriptor 5, store a pending write
on thread 7 for handle 1, free handle 1, then observe the exit with return
code 4: the emitted event's descriptor is −1. -/
theorem c5_lookup_most_recent_witness :
    lookup_fd ((handle_ssl_set_fd 1 5 emptyA).ssl_fd_map) 1 = s32ofU32 (5 % 2 ^ 32) ∧
    lookup_fd emptyA.ssl_fd_map 3 = -1 ∧
    lookup_fd ((handle_ssl_free 1 (handle_ssl_set_fd 1 5 emptyA)).ssl_fd_map) 1 = -1 ∧
    (∃ ev,
        (handle_ssl_write_exit 7 4 true 0 true []
            (handle_ssl_free 1
              (handle_ssl_write_entry 7 1 2 (handle_ssl_set_fd 1 5 emptyA)))).events =
          (handle_ssl_write_entry 7 1 2 (handle_ssl_set_fd 1 5 emptyA)).events ++ [ev] ∧
          ev.fd = -1) :=
  ⟨c5_lookup_most_recent.1 emptyA 1 5,
   c5_lookup_most_recent.2.1 emptyA 3 rfl,
   c5_lookup_most_recent.2.2.1 (handle_ssl_set_fd 1 5 emptyA) 1,
   c5_lookup_most_recent.2.2.2 (handle_ssl_write_entry 7 1 2 (handle_ssl_set_fd 1 5 emptyA))
     7 ⟨1, 2⟩ 4 0 true [] rfl (by decide)⟩

/-- Claim C6: `handle_ssl_set_fd` (Bind) inserts or overwrites and never
fails — binding the same pair twice equals binding it once, a later bind
for the same handle wins, and other handles are untouched; `handle_ssl_free`
(Unbind) removes the mapping if present and is a no-op on the whole state
when the handle is absent. -/
theorem c6_bind_unbind_algebra :
    (∀ st ssl fd,
        handle_ssl_set_fd ssl fd (handle_ssl_set_fd ssl fd st) =
          handle_ssl_set_fd ssl fd st) ∧
    (∀ st ssl fd1 fd2,
        handle_ssl_set_fd ssl fd2 (handle_ssl_set_fd ssl fd1 st) =
          handle_ssl_set_fd ssl fd2 st) ∧
    (∀ st ssl fd h, h ≠ ssl →
        (handle_ssl_set_fd ssl fd st).ssl_fd_map h = st.ssl_fd_map h ∧
        (handle_ssl_free ssl st).ssl_fd_map h = st.ssl_fd_map h) ∧
    (∀ st ssl, (handle_ssl_free ssl st).ssl_fd_map ssl = none) ∧
    (∀ st ssl, st.ssl_fd_map ssl = none → handle_ssl_free ssl st = st) := by
  refine ⟨?_, ?_, ?_, ?_, ?_⟩
  · intro st ssl fd
    simp only [handle_ssl_set_fd]
    congr 1
    funext x
    by_cases hx : x = ssl <;> simp [mapUpdate, hx]
  · intro st ssl fd1 fd2
    simp only [handle_ssl_set_fd]
    congr 1
    funext x
    by_cases hx : x = ssl <;> simp [mapUpdate, hx]
  · intro st ssl fd h hh
    exact ⟨by simp [handle_ssl_set_fd, mapUpdate, hh],
           by simp [handle_ssl_free, mapDelete, hh]⟩
  · intro st ssl
    simp [handle_ssl_free, mapDelete]
  · intro st ssl h
    simp only [handle_ssl_free]
    rw [mapDelete_absent _ _ h]

/-- Claim C6 witness: concrete instantiations of the parts of
`c6_bind_unbind_algebra` that carry hypotheses. -/
theorem c6_bind_unbind_algebra_witness :
    ((handle_ssl_set_fd 1 5 emptyA).ssl_fd_map 2 = emptyA.ssl_fd_map 2 ∧
      (handle_ssl_free 1 emptyA).ssl_fd_map 2 = emptyA.ssl_fd_map 2) ∧
    handle_ssl_free 3 emptyA = emptyA :=
  ⟨c6_bind_unbind_algebra.2.2.1 emptyA 1 5 2 (by decide),
   c6_bind_unbind_algebra.2.2.2.2 emptyA 3 rfl⟩

/-- Claim C7 (amended): in the perf-event variant, a call entry whose
requested length is non-positive or exceeds `MAX_CAPTURE_SIZE` leaves the
state untouched — `uprobe_ssl_read` stores no pending context (so a later
exit finds none and produces no event) and `uprobe_ssl_write` emits
nothing.  The ring-buffer variant instead stores its pending entry
unconditionally, never examining the requested length (see the
counterexample). -/
theorem c7_entry_sanity_check :
    (∀ (pt buf : Nat) (num : Int) (st : StateB),
        num ≤ 0 ∨ num > (MAX_CAPTURE_SIZE : Int) →
        uprobe_ssl_read pt buf num st = st) ∧
    (∀ (pt now buf : Nat) (num : Int) (ro po : Bool) (mem : List Nat) (st : StateB),
        num ≤ 0 ∨ num > (MAX_CAPTURE_SIZE : Int) →
        uprobe_ssl_write pt now buf num ro po mem st = st) ∧
    (∀ (pt now : Nat) (ret : Int) (ro po : Bool) (mem : List Nat) (st : StateB),
        st.ssl_read_context pt = none →
        (uretprobe_ssl_read pt now ret ro po mem st).events = st.events) := by
  refine ⟨?_, ?_, ?_⟩
  · intro pt buf num st h
    unfold uprobe_ssl_read
    rw [if_pos h]
  · intro pt now buf num ro po mem st h
    unfold uprobe_ssl_write
    rw [if_pos h]
  · intro pt now ret ro po mem st h
    unfold uretprobe_ssl_read
    split
    · rfl
    · rw [h]

/-- Claim C7 witness: concrete instantiations of `c7_entry_sanity_check`
for requested length −1 (non-positive) and 70000 (over the ceiling), and an
exit with no stored context. -/
theorem c7_entry_sanity_check_witness :
    uprobe_ssl_read 7 1 (-1) emptyB = emptyB ∧
    uprobe_ssl_write 7 0 1 70000 true true [] emptyB = emptyB ∧
    (uretprobe_ssl_read 7 0 5 true true [] emptyB).events = emptyB.events :=
  ⟨c7_entry_sanity_check.1 7 1 (-1) emptyB (Or.inl (by decide)),
   c7_entry_sanity_check.2.1 7 0 1 70000 true true [] emptyB (Or.inr (by decide)),
   c7_entry_sanity_check.2.2 7 0 5 true true [] emptyB rfl⟩

/-- Claim C7 counterexample: the ring-buffer variant's `SSL_write` entry
probe reads only the ssl and buf registers and stores the pending entry
unconditionally — for a call whose requested length is −5 (indeed for any
length, since the probe never reads it) the entry IS stored, and the
matching exit with return code 5 DOES emit an event, refuting "the call is
not tracked" and "its exit silently produces no Event". -/
theorem c7_counterexample :
    (handle_ssl_write_entry 7 1 2 emptyA).pending_write 7 = some ⟨1, 2⟩ ∧
    (fileA_write_call 7 1 2 (-5) 5 true 0 true [1, 2, 3, 4, 5] emptyA).events.length = 1 :=
  ⟨rfl, rfl⟩

/-- Claim C8: in the perf-event variant, an inbound call (entry with
requested length `num`, exit with return code `ret`) that yields an event
gives it captured length `min(returnCode, requestedLen, MAX_CAPTURE_SIZE)`
— the stored-entry guard bounds `num` by the cap and the exit guard bounds
`ret` by the cap, so the source's `min(ret_val, num)` equals the
three-way minimum. -/
theorem c8_inbound_capture_min :
    ∀ (pt buf : Nat) (num : Int) (now : Nat) (ret : Int) (ro po : Bool)
      (mem : List Nat) (st : StateB) (ev : ssl_event),
      st.ssl_read_context pt = none →
      (fileB_read_call pt buf num now ret ro po mem st).events = st.events ++ [ev] →
      ev.data_len = min ret.toNat (min num.toNat MAX_CAPTURE_SIZE) := by
  intro pt buf num now ret ro po mem st ev h0 h
  have hne : ∀ (l : List ssl_event) (a : ssl_event), l ≠ l ++ [a] := by
    intro l a hl
    have := congrArg List.length hl
    simp at this
  unfold fileB_read_call uprobe_ssl_read at h
  by_cases hnum : num ≤ 0 ∨ num > (MAX_CAPTURE_SIZE : Int)
  · rw [if_pos hnum] at h
    unfold uretprobe_ssl_read at h
    split at h
    · exact absurd h (hne _ _)
    · rw [h0] at h
      exact absurd h (hne _ _)
  · rw [if_neg hnum] at h
    unfold uretprobe_ssl_read at h
    by_cases hret : ret ≤ 0 ∨ ret > (MAX_CAPTURE_SIZE : Int)
    · rw [if_pos hret] at h
      exact absurd h (hne _ _)
    · rw [if_neg hret] at h
      simp only [mapUpdate_same] at h
      by_cases hro : ro = false
      · rw [if_pos hro] at h
        exact absurd h (hne _ _)
      · rw [if_neg hro] at h
        by_cases hpo : po = true
        · rw [if_pos hpo] at h
          simp only [List.append_cancel_left_eq] at h
          obtain rfl : ev = _ := (List.singleton_inj.mp h.symm)
          push_neg at hnum hret
          simp only [MAX_CAPTURE_SIZE] at hnum hret ⊢
          obtain ⟨hn1, hn2⟩ := hnum
          obtain ⟨hr1, hr2⟩ := hret
          by_cases hc : ret < num
          · rw [if_pos hc]
            omega
          · rw [if_neg hc]
            omega
        · rw [if_neg hpo] at h
          simp only [List.append_nil] at h
          exact absurd h (hne _ _)

/-- Concrete event produced by the perf-variant inbound call with requested
length 10 and return code 4 (used by the C8 witness). -/
def ev4 : ssl_event :=
  { timestamp_ns := 0, pid := 0, tid := 7, fd := 0, is_write := 0,
    data_len := 4, data := [1, 2, 3, 4] }

/-- Claim C8 witness: a concrete inbound call with requested length 10,
return code 4 and cap 65536 captures exactly min(4, 10, 65536) = 4 bytes. -/
theorem c8_inbound_capture_min_witness :
    emptyB.ssl_read_context 7 = none ∧
    (fileB_read_call 7 1 10 0 4 true true [1, 2, 3, 4] emptyB).events =
      emptyB.events ++ [ev4] ∧
    ev4.data_len = min (4 : Int).toNat (min (10 : Int).toNat MAX_CAPTURE_SIZE) :=
  ⟨rfl, rfl,
   c8_inbound_capture_min 7 1 10 0 4 true true [1, 2, 3, 4] emptyB ev4 rfl rfl⟩

/-- `emit_event` submits nothing when the ring-buffer reservation fails
(shared helper). -/
theorem emit_event_reserve_fail (fdmap : Nat → Option Nat) (args : Option ssl_io_args)
    (captured_len : Int) (direction now pt : Nat) (ro : Bool) (mem : List Nat) :
    emit_event fdmap args captured_len direction false now pt ro mem = none := by
  cases args with
  | none => rfl
  | some a =>
    simp only [emit_event]
    split
    · rfl
    · rfl

/-- Claim C9 (amended): when the output transport rejects the record
(ring-buffer reservation failure, modelled as `reserveOk = false`; perf
enqueue rejection, modelled as `perfOk = false`), the event is dropped and
nothing else happens: the event stream, the registry and the other pending
table are unchanged, and every probe still returns 0 to the instrumented
program (all handlers are total, returning a state on every path).  No drop
counter exists anywhere in either source file (see the counterexample). -/
theorem c9_transport_full_drops :
    (∀ (pt : Nat) (ret : Int) (now : Nat) (ro : Bool) (mem : List Nat) (st : StateA),
        (handle_ssl_write_exit pt ret false now ro mem st).events = st.events ∧
        (handle_ssl_write_exit pt ret false now ro mem st).ssl_fd_map = st.ssl_fd_map ∧
        (handle_ssl_write_exit pt ret false now ro mem st).pending_read = st.pending_read) ∧
    (∀ (pt : Nat) (ret : Int) (now : Nat) (ro : Bool) (mem : List Nat) (st : StateA),
        (handle_ssl_read_exit pt ret false now ro mem st).events = st.events ∧
        (handle_ssl_read_exit pt ret false now ro mem st).ssl_fd_map = st.ssl_fd_map ∧
        (handle_ssl_read_exit pt ret false now ro mem st).pending_write = st.pending_write) ∧
    (∀ (pt now buf : Nat) (num : Int) (ro : Bool) (mem : List Nat) (st : StateB),
        uprobe_ssl_write pt now buf num ro false mem st = st) ∧
    (∀ (pt now : Nat) (ret : Int) (ro : Bool) (mem : List Nat) (st : StateB),
        (uretprobe_ssl_read pt now ret ro false mem st).events = st.events) := by
  refine ⟨?_, ?_, ?_, ?_⟩
  · intro pt ret now ro mem st
    rcases hm : st.pending_write pt with _ | args
    · unfold handle_ssl_write_exit
      rw [hm]
      exact ⟨rfl, rfl, rfl⟩
    · rw [handle_ssl_write_exit_found _ _ _ _ _ _ _ args hm,
          emit_event_reserve_fail]
      exact ⟨by simp, rfl, rfl⟩
  · intro pt ret now ro mem st
    rcases hm : st.pending_read pt with _ | args
    · unfold handle_ssl_read_exit
      rw [hm]
      exact ⟨rfl, rfl, rfl⟩
    · rw [handle_ssl_read_exit_found _ _ _ _ _ _ _ args hm,
          emit_event_reserve_fail]
      exact ⟨by simp, rfl, rfl⟩
  · intro pt now buf num ro mem st
    unfold uprobe_ssl_write
    split
    · rfl
    · split
      · rfl
      · simp
  · intro pt now ret ro mem st
    unfold uretprobe_ssl_read
    split
    · rfl
    · split
      · rfl
      · by_cases hro : ro = false <;> simp [hro]

/-- Claim C9 counterexample: at a concrete transport-full exit (pending
write on thread 7, return code 5, `reserveOk = false`) the ring-buffer
variant's entire post-state is: no event, the consumed pending entry gone,
everything else as before — and in the perf variant a rejected enqueue
leaves the state literally identical.  `StateA` and `StateB` contain every
map the two source files declare, and none of them is a counter: nothing
is incremented on the drop, refuting the claim's "a drop counter is
incremented". -/
theorem c9_counterexample :
    ((handle_ssl_write_exit 7 5 false 0 true [1, 2, 3, 4, 5]
        (handle_ssl_write_entry 7 1 2 emptyA)).events = [] ∧
      (handle_ssl_write_exit 7 5 false 0 true [1, 2, 3, 4, 5]
        (handle_ssl_write_entry 7 1 2 emptyA)).pending_write 7 = none ∧
      (handle_ssl_write_exit 7 5 false 0 true [1, 2, 3, 4, 5]
        (handle_ssl_write_entry 7 1 2 emptyA)).ssl_fd_map 1 = none) ∧
    uprobe_ssl_write 7 0 1 5 true false [1, 2, 3, 4, 5] emptyB = emptyB :=
  ⟨⟨rfl, rfl, rfl⟩, rfl⟩

/-- Claim C10: after any exit handler runs, the pending table holds no
entry under that handler's (direction, thread) key — unconditionally in
the return code, the reservation outcome, the read outcome and the
transport outcome, so in particular whenever an entry existed it has been
consumed, whether or not an event was emitted. -/
theorem c10_pending_entry_consumed :
    ∀ (pt : Nat) (ret : Int) (rsv : Bool) (now : Nat) (ro po : Bool)
      (mem : List Nat) (st : StateA) (stb : StateB),
      (handle_ssl_write_exit pt ret rsv now ro mem st).pending_write pt = none ∧
      (handle_ssl_read_exit pt ret rsv now ro mem st).pending_read pt = none ∧
      (uretprobe_ssl_read pt now ret ro po mem stb).ssl_read_context pt = none := by
  intro pt ret rsv now ro po mem st stb
  refine ⟨?_, ?_, ?_⟩
  · rcases hm : st.pending_write pt with _ | args
    · unfold handle_ssl_write_exit
      rw [hm]
      exact hm
    · rw [handle_ssl_write_exit_found _ _ _ _ _ _ _ args hm]
      exact mapDelete_same _ _
  · rcases hm : st.pending_read pt with _ | args
    · unfold handle_ssl_read_exit
      rw [hm]
      exact hm
    · rw [handle_ssl_read_exit_found _ _ _ _ _ _ _ args hm]
      exact mapDelete_same _ _
  · unfold uretprobe_ssl_read
    split
    · exact mapDelete_same _ _
    · rcases hm : stb.ssl_read_context pt with _ | c
      · exact hm
      · by_cases hro : ro = false <;> simp [hro, mapDelete_same]
